import Mathlib

/-!
Verification of the data-pipeline and checkpoint-lifecycle core of the
QLoRA fine-tuning script (src/test.py), as described by the repository
specification.  The Python source is shallowly embedded: dictionaries
become association lists of string fields, Python list indexing (with
its negative-index semantics) becomes `pylist_getitem`, fallible
operations return `Option`/`Except`, and the filesystem side effects of
the save callback are recorded as an explicit event trace.
-/

/-- A loaded record of the dataset: a Python dict whose fields of
interest are strings, embedded as an association list (first binding
of a key wins, as a dict has at most one binding per key). -/
abbrev Record := List (String × String)

/-- Field access `d[k]` on a record: `some` value, or `none` for a
Python `KeyError`. -/
def Record.getfield (e : Record) (k : String) : Option String :=
  List.lookup k e

/-- Embedding of `prepare_sample_text` (src/test.py lines 108-111):
builds the f-string `Question: ` + the `query` field + a blank line +
`Answer: ` + the `resp` field.  A missing `query` or `resp` key is a
`KeyError`, embedded as `none`.  Note the source reads the key `resp`,
not `response`. -/
def prepare_sample_text (sample : Record) : Option String :=
  match sample.getfield "query", sample.getfield "resp" with
  | some q, some r => some ("Question: " ++ q ++ "\n\n" ++ "Answer: " ++ r)
  | _, _ => none

/-- Embedding of CPython list subscription `l[i]` for an integer `i`:
a negative index counts from the end; an index outside `[-len, len)`
is an `IndexError`, embedded as `none`. -/
def pylist_getitem {α : Type} (l : List α) (i : Int) : Option α :=
  let j : Int := if i < 0 then i + l.length else i
  if 0 ≤ j then l.get? j.toNat else none

/-- Embedding of the `JSONDataset` object (src/test.py lines 115-124)
after construction: `self.data` holds the decoded list of records of
the input file, in file order. -/
structure JSONDataset where
  data : List Record

/-- Embedding of `JSONDataset.__len__` (src/test.py lines 120-121). -/
def JSONDataset.len (d : JSONDataset) : Nat :=
  d.data.length

/-- Embedding of `JSONDataset.__getitem__` (src/test.py lines 123-124):
plain Python list subscription of `self.data`. -/
def JSONDataset.getitem (d : JSONDataset) (idx : Int) : Option Record :=
  pylist_getitem d.data idx

/-- A JSON value, for describing what `json.load` can return. -/
inductive Json where
  | null : Json
  | bool : Bool → Json
  | num : Int → Json
  | str : String → Json
  | arr : List Json → Json
  | obj : List (String × Json) → Json

/-- Embedding of `JSONDataset.__init__` (src/test.py lines 116-118):
the body is exactly `self.data = json.load(f)`.  The file content is
embedded already lexed: `none` stands for text that is not well-formed
JSON (on which `json.load` raises `json.JSONDecodeError`), `some j`
for text that decodes to the value `j`.  The decoded value is stored
unchecked, whatever its shape. -/
def JSONDataset_init (fileContent : Option Json) : Except String Json :=
  match fileContent with
  | none => Except.error "JSONDecodeError"
  | some j => Except.ok j

/-- Spec-side predicate, from the words of the spec in section 4.1: the file
is a well-formed serialized array of objects each containing string
`query` and `response` fields. -/
def isSampleObj : Json → Bool
  | Json.obj fields =>
      (match List.lookup "query" fields with
       | some (Json.str _) => true
       | _ => false)
      &&
      (match List.lookup "response" fields with
       | some (Json.str _) => true
       | _ => false)
  | _ => false

/-- Spec-side predicate: a well-formed serialized array of sample
objects (the load contract of spec section 4.1). -/
def wellFormedSampleArray : Json → Bool
  | Json.arr elems => elems.all isSampleObj
  | _ => false

/-- The fixed checkpoint-directory literal imported by src/test.py from
the trainer library (`PREFIX_CHECKPOINT_DIR`). -/
def PREFIX_CHECKPOINT_DIR : String := "checkpoint"

/-- Embedding of the two-argument POSIX `os.path.join(a, b)`: an
absolute second component replaces the first; otherwise the components
are joined, inserting a separator unless the first component is empty
or already ends in one. -/
def os_path_join (a b : String) : String :=
  if b.startsWith "/" then b
  else if a = "" ∨ a.endsWith "/" then a ++ b
  else a ++ "/" ++ b

/-- The `checkpoint_path` local of `on_save` (src/test.py line 75):
the output root joined with the checkpoint literal, a hyphen, and the
decimal global step. -/
def checkpoint_path (output_dir : String) (global_step : Nat) : String :=
  os_path_join output_dir (PREFIX_CHECKPOINT_DIR ++ "-" ++ toString global_step)

/-- One observable external call made by the save callback. -/
inductive FsEvent where
  | saveCall : String → FsEvent
  | removeCall : String → FsEvent
deriving DecidableEq

/-- The paths on which the adapter-save capability was invoked, in
order, within a trace. -/
def saveCalls (trace : List FsEvent) : List String :=
  trace.filterMap (fun e => match e with
    | FsEvent.saveCall p => some p
    | _ => none)

/-- The paths passed to `os.remove`, in order, within a trace. -/
def removeCalls (trace : List FsEvent) : List String :=
  trace.filterMap (fun e => match e with
    | FsEvent.removeCall p => some p
    | _ => none)

/-- Embedding of `SavePeftModelCallback.on_save` (src/test.py lines
74-80).  The external world is passed in explicitly: `save` is the
`save_pretrained` capability of the model (its failure is a raised
exception, embedded as `Except.error`), and `listdir` is the directory
listing observed by `os.listdir` after the save.  The result pairs the
trace of external calls made with the callback outcome: `Except.ok ()`
for a normal return, `Except.error e` for a propagated exception.  If
`save` fails, the listing and removal lines are never reached. -/
def on_save {ε : Type} (output_dir : String) (global_step : Nat)
    (save : String → Except ε Unit) (listdir : String → List String) :
    List FsEvent × Except ε Unit :=
  let cp := checkpoint_path output_dir global_step
  match save cp with
  | Except.error e => ([FsEvent.saveCall cp], Except.error e)
  | Except.ok _ =>
      if "pytorch_model.bin" ∈ listdir cp then
        ([FsEvent.saveCall cp, FsEvent.removeCall (os_path_join cp "pytorch_model.bin")],
         Except.ok ())
      else
        ([FsEvent.saveCall cp], Except.ok ())

/-- Modelled from the spec: a Sample of the data model (spec section 3),
`query` and `response` strings.  The Packing Stream consumes these. -/
structure Sample where
  query : String
  response : String
deriving DecidableEq

/-- Modelled from the spec: the Formatted Text derived from a Sample
(spec section 3). -/
def formatSample (s : Sample) : String :=
  "Question: " ++ s.query ++ "\n\n" ++ "Answer: " ++ s.response

/-- A Packed Block emitted by the Packing Stream: ids, labels and
attention mask (spec section 3). -/
structure PackedBlock where
  input_ids : List Nat
  labels : List Nat
  attention_mask : List Nat

/-- The mutable state of one Packing Stream instance: the Token Buffer
and the cursor into the Sample Source (spec section 4.2). -/
structure PackState where
  buffer : List Nat
  cursor : Nat

/-- Modelled from the spec: one refill loop of the Packing Stream in
infinite mode (spec section 4.2, step 2).  The packing implementation
itself (`ConstantLengthDataset` of the trl library, constructed with
`infinite=True` at src/test.py lines 127-134) is external to the
repository, so the loop is modelled from the algorithm of the spec: while
the Token Buffer holds fewer than `seqLen` tokens, fetch the Sample at
the cursor, format it, tokenize it, append the resulting ids plus one
end-of-text id, and advance the cursor modulo the source length.
Each iteration appends at least the end-of-text id, so at most
`seqLen` iterations are needed; the recursion is driven by that fuel.
With an empty Sample Source the real stream never accumulates tokens
(it would never return), so the loop also stops on an empty source. -/
def fillBuffer (tokenize : String → List Nat) (eosId : Nat)
    (samples : List Sample) (seqLen : Nat) :
    Nat → PackState → PackState
  | 0, st => st
  | fuel + 1, st =>
      if st.buffer.length < seqLen ∧ samples ≠ [] then
        let s := samples.getD (st.cursor % samples.length) ⟨"", ""⟩
        fillBuffer tokenize eosId samples seqLen fuel
          ⟨st.buffer ++ tokenize (formatSample s) ++ [eosId],
           (st.cursor + 1) % samples.length⟩
      else st

/-- Modelled from the spec: produce the next Packed Block and the
successor stream state (spec section 4.2, step 3): refill the buffer to
at least `seqLen` tokens, slice off the first `seqLen` ids, set labels
equal to ids and the attention mask to all ones, and retain the
remainder. -/
def nextBlock (tokenize : String → List Nat) (eosId : Nat)
    (samples : List Sample) (seqLen : Nat) (st : PackState) :
    PackedBlock × PackState :=
  let st2 := fillBuffer tokenize eosId samples seqLen seqLen st
  let ids := st2.buffer.take seqLen
  (⟨ids, ids, List.replicate ids.length 1⟩, ⟨st2.buffer.drop seqLen, st2.cursor⟩)

/-- Modelled from the spec: the stream state after `k` blocks have been
emitted, starting from the empty buffer and cursor 0 (spec section
4.2, steps 1 and 4). -/
def streamState (tokenize : String → List Nat) (eosId : Nat)
    (samples : List Sample) (seqLen : Nat) : Nat → PackState
  | 0 => ⟨[], 0⟩
  | k + 1 => (nextBlock tokenize eosId samples seqLen
               (streamState tokenize eosId samples seqLen k)).2

/-- Modelled from the spec: the `k`-th Packed Block emitted by an
infinite Packing Stream. -/
def emittedBlock (tokenize : String → List Nat) (eosId : Nat)
    (samples : List Sample) (seqLen : Nat) (k : Nat) : PackedBlock :=
  (nextBlock tokenize eosId samples seqLen
    (streamState tokenize eosId samples seqLen k)).1

/-! ## Helper lemmas -/

/-- A list lookup by position succeeds exactly on positions below the
length. -/
theorem list_get?_isSome {α : Type} (l : List α) (m : Nat) :
    (l.get? m).isSome = true ↔ m < l.length := by
  rcases Nat.lt_or_ge m l.length with h | h
  · simp [List.get?_eq_getElem?, List.getElem?_eq_getElem h, h]
  · simp [List.get?_eq_getElem?, List.getElem?_eq_none h]
    omega

/-- The refill loop, given fuel at least the outstanding token deficit
and a non-empty source, reaches at least `seqLen` buffered tokens:
every iteration appends at least the end-of-text id. -/
theorem fillBuffer_length_ge (tokenize : String → List Nat) (eosId : Nat)
    (samples : List Sample) (seqLen : Nat) (hne : samples ≠ []) :
    ∀ (fuel : Nat) (st : PackState), seqLen ≤ st.buffer.length + fuel →
      seqLen ≤ (fillBuffer tokenize eosId samples seqLen fuel st).buffer.length := by
  intro fuel
  induction fuel with
  | zero =>
      intro st h
      simpa [fillBuffer] using h
  | succ n ih =>
      intro st h
      rw [fillBuffer]
      split
      · apply ih
        simp only [List.length_append, List.length_cons, List.length_nil]
        omega
      · rename_i hcond
        have : ¬ st.buffer.length < seqLen := fun hlt => hcond ⟨hlt, hne⟩
        omega

/-! ## Claims -/

/-- Claim C1, counterexample: a record whose fields are `query` and
`response` (exactly the Sample shape of the data model in the claim) is
not formatted as the claim states; `prepare_sample_text` reads the key
`resp`, so a `response`-keyed record hits a `KeyError` (embedded as
`none`) instead of producing the claimed string. -/
theorem C1_response_key_counterexample :
    prepare_sample_text [("query", "a"), ("response", "b")] = none ∧
    prepare_sample_text [("query", "a"), ("response", "b")]
      ≠ some ("Question: " ++ "a" ++ "\n\n" ++ "Answer: " ++ "b") :=
  ⟨rfl, by decide⟩

/-- Claim C1, amended: for every record holding a `query` field and a
`resp` field, the formatted text is `Question: ` plus the query, a
blank line, and `Answer: ` plus the `resp` field; a record lacking
either key fails with `KeyError`. -/
theorem C1_formats_query_and_resp (e : Record) (q r : String)
    (hq : e.getfield "query" = some q) (hr : e.getfield "resp" = some r) :
    prepare_sample_text e = some ("Question: " ++ q ++ "\n\n" ++ "Answer: " ++ r) := by
  unfold prepare_sample_text
  rw [hq, hr]

/-- Witness for the amended claim C1 on a concrete record. -/
theorem C1_formats_query_and_resp_witness :
    (Record.getfield [("query", "a"), ("resp", "b")] "query" = some "a") ∧
    (Record.getfield [("query", "a"), ("resp", "b")] "resp" = some "b") ∧
    prepare_sample_text [("query", "a"), ("resp", "b")]
      = some ("Question: " ++ "a" ++ "\n\n" ++ "Answer: " ++ "b") :=
  ⟨by decide, by decide,
   C1_formats_query_and_resp [("query", "a"), ("resp", "b")] "a" "b" (by decide) (by decide)⟩

/-- Claim C10: the formatting function is deterministic (it is a pure
function of its argument) and its output depends only on the `query`
and `resp` fields: two records agreeing on those two fields format
identically, whatever other fields they carry. -/
theorem C10_depends_only_on_query_resp (e1 e2 : Record)
    (hq : e1.getfield "query" = e2.getfield "query")
    (hr : e1.getfield "resp" = e2.getfield "resp") :
    prepare_sample_text e1 = prepare_sample_text e2 := by
  unfold prepare_sample_text
  rw [hq, hr]

/-- Witness for claim C10: a record with an extra field formats the
same as one without it. -/
theorem C10_depends_only_on_query_resp_witness :
    (Record.getfield [("query", "a"), ("resp", "b")] "query"
       = Record.getfield [("extra", "zzz"), ("query", "a"), ("resp", "b")] "query") ∧
    (Record.getfield [("query", "a"), ("resp", "b")] "resp"
       = Record.getfield [("extra", "zzz"), ("query", "a"), ("resp", "b")] "resp") ∧
    prepare_sample_text [("query", "a"), ("resp", "b")]
      = prepare_sample_text [("extra", "zzz"), ("query", "a"), ("resp", "b")] :=
  ⟨by decide, by decide,
   C10_depends_only_on_query_resp [("query", "a"), ("resp", "b")]
     [("extra", "zzz"), ("query", "a"), ("resp", "b")] (by decide) (by decide)⟩

/-- Claim C3, counterexample: on a one-record source, index `-1` is
outside `[0, 1)`, yet `__getitem__` succeeds (Python negative
indexing) instead of failing with `IndexError`. -/
theorem C3_negative_index_counterexample :
    ((-1 : Int) < 0) ∧
    JSONDataset.getitem ⟨[[("query", "a"), ("resp", "b")]]⟩ (-1)
      = some [("query", "a"), ("resp", "b")] :=
  ⟨by decide, by decide⟩

/-- Claim C3, amended: index access on a loaded source of length `n`
succeeds exactly on `[-n, n)` (a negative index counts from the end,
per Python list semantics) and fails with `IndexError` exactly outside
that range. -/
theorem C3_getitem_succeeds_iff_in_range (l : List Record) (i : Int) :
    (JSONDataset.getitem ⟨l⟩ i).isSome = true ↔
      (-(l.length : Int) ≤ i ∧ i < (l.length : Int)) := by
  simp only [JSONDataset.getitem, pylist_getitem]
  by_cases h1 : i < 0
  · rw [if_pos h1]
    by_cases h2 : (0 : Int) ≤ i + l.length
    · rw [if_pos h2, list_get?_isSome]
      omega
    · rw [if_neg h2]
      simp only [Option.isSome_none, Bool.false_eq_true, false_iff]
      omega
  · rw [if_neg h1, if_pos (le_of_not_lt h1), list_get?_isSome]
    omega

/-- Claim C4, counterexample: a file decoding to an array whose single
object lacks both `query` and `response` is not a well-formed sample
array, yet construction accepts it without any `DataFormatError`:
decoding is the only check performed, so the missing fields do not fail
fast at load time. -/
theorem C4_no_field_validation_counterexample :
    JSONDataset_init (some (Json.arr [Json.obj []]))
      = Except.ok (Json.arr [Json.obj []]) ∧
    wellFormedSampleArray (Json.arr [Json.obj []]) = false :=
  ⟨rfl, rfl⟩

/-- Claim C4, amended: loading fails exactly when the file text is not
well-formed JSON; no validation of the array-of-objects shape or of the
required fields happens at load time, so a record with a missing field
loads successfully and the problem only surfaces later, as a `KeyError`
when the sample is formatted. -/
theorem C4_load_decodes_without_validation :
    (∀ fileContent : Option Json,
      (JSONDataset_init fileContent).isOk = fileContent.isSome) ∧
    prepare_sample_text [] = none := by
  refine ⟨?_, rfl⟩
  intro fc
  cases fc <;> rfl

/-- Claim C9: a source constructed from a decoded file of records has
length equal to the number of records, and indexed access at any
`i < n` returns exactly the `i`-th record of the file, in insertion
order, unchanged (the embedding is pure, so repeated calls agree). -/
theorem C9_source_indexed_in_order (rs : List Record) (i : Nat)
    (h : i < rs.length) :
    JSONDataset.len ⟨rs⟩ = rs.length ∧
    JSONDataset.getitem ⟨rs⟩ (i : Int) = some (rs.get ⟨i, h⟩) := by
  refine ⟨rfl, ?_⟩
  simp only [JSONDataset.getitem, pylist_getitem]
  rw [if_neg (by omega : ¬ ((i : Int) < 0)),
      if_pos (by omega : (0 : Int) ≤ (i : Int)),
      (by omega : ((i : Int)).toNat = i)]
  exact List.get?_eq_get h

/-- Witness for claim C9 on a concrete two-record source. -/
theorem C9_source_indexed_in_order_witness :
    (1 < ([[("query", "a"), ("resp", "b")], [("query", "c"), ("resp", "d")]] : List Record).length) ∧
    JSONDataset.len ⟨[[("query", "a"), ("resp", "b")], [("query", "c"), ("resp", "d")]]⟩ = 2 ∧
    JSONDataset.getitem ⟨[[("query", "a"), ("resp", "b")], [("query", "c"), ("resp", "d")]]⟩ 1
      = some [("query", "c"), ("resp", "d")] := by
  refine ⟨by decide, ?_⟩
  exact C9_source_indexed_in_order
    [[("query", "a"), ("resp", "b")], [("query", "c"), ("resp", "d")]] 1 (by decide)

/-- Claim C5: for every output root and non-negative step, `on_save`
computes the checkpoint path as the output root joined with the fixed
checkpoint literal, a hyphen and the decimal step number, and invokes
the adapter-only save capability exactly once, on exactly that path —
whatever the save outcome and the directory listing. -/
theorem C5_on_save_path {ε : Type} (output_dir : String) (global_step : Nat)
    (save : String → Except ε Unit) (listdir : String → List String) :
    saveCalls (on_save output_dir global_step save listdir).1
      = [checkpoint_path output_dir global_step] ∧
    checkpoint_path output_dir global_step
      = os_path_join output_dir (PREFIX_CHECKPOINT_DIR ++ "-" ++ toString global_step) := by
  refine ⟨?_, rfl⟩
  unfold on_save
  rcases hs : save (checkpoint_path output_dir global_step) with e | u
  · simp [hs, saveCalls]
  · by_cases hm : "pytorch_model.bin" ∈ listdir (checkpoint_path output_dir global_step)
    · simp [hs, hm, saveCalls]
    · simp [hs, hm, saveCalls]

/-- Claim C6: when the adapter save succeeds and the listing of the
checkpoint path contains the full-weight artifact name, `on_save`
performs exactly one removal, of exactly that file inside the
checkpoint directory, and no other. -/
theorem C6_removes_only_artifact {ε : Type} (output_dir : String)
    (global_step : Nat) (save : String → Except ε Unit)
    (listdir : String → List String)
    (hok : save (checkpoint_path output_dir global_step) = Except.ok ())
    (hin : "pytorch_model.bin" ∈ listdir (checkpoint_path output_dir global_step)) :
    removeCalls (on_save output_dir global_step save listdir).1
      = [os_path_join (checkpoint_path output_dir global_step) "pytorch_model.bin"] := by
  unfold on_save
  simp [hok, hin, removeCalls]

/-- Witness for claim C6 on a concrete root, step and listing. -/
theorem C6_removes_only_artifact_witness :
    ((fun _ : String => (Except.ok () : Except String Unit)) (checkpoint_path "out" 7)
       = Except.ok ()) ∧
    ("pytorch_model.bin" ∈ (fun _ : String => ["adapter_model.bin", "pytorch_model.bin"])
       (checkpoint_path "out" 7)) ∧
    removeCalls (on_save "out" 7 (fun _ => (Except.ok () : Except String Unit))
        (fun _ => ["adapter_model.bin", "pytorch_model.bin"])).1
      = [os_path_join (checkpoint_path "out" 7) "pytorch_model.bin"] :=
  ⟨rfl, by decide,
   C6_removes_only_artifact "out" 7 (fun _ => Except.ok ())
     (fun _ => ["adapter_model.bin", "pytorch_model.bin"]) rfl (by decide)⟩

/-- Claim C7: when the adapter save succeeds and the artifact name is
absent from the listing of the checkpoint path, `on_save` removes
nothing and returns normally: absence of the artifact is not a
failure. -/
theorem C7_absent_artifact_no_removal {ε : Type} (output_dir : String)
    (global_step : Nat) (save : String → Except ε Unit)
    (listdir : String → List String)
    (hok : save (checkpoint_path output_dir global_step) = Except.ok ())
    (hout : "pytorch_model.bin" ∉ listdir (checkpoint_path output_dir global_step)) :
    removeCalls (on_save output_dir global_step save listdir).1 = [] ∧
    (on_save output_dir global_step save listdir).2 = Except.ok () := by
  unfold on_save
  simp [hok, hout, removeCalls]

/-- Witness for claim C7 on a concrete listing without the artifact. -/
theorem C7_absent_artifact_no_removal_witness :
    ((fun _ : String => (Except.ok () : Except String Unit)) (checkpoint_path "out" 7)
       = Except.ok ()) ∧
    ("pytorch_model.bin" ∉ (fun _ : String => ["adapter_model.bin"])
       (checkpoint_path "out" 7)) ∧
    (removeCalls (on_save "out" 7 (fun _ => (Except.ok () : Except String Unit))
        (fun _ => ["adapter_model.bin"])).1 = [] ∧
     (on_save "out" 7 (fun _ => (Except.ok () : Except String Unit))
        (fun _ => ["adapter_model.bin"])).2 = Except.ok ()) :=
  ⟨rfl, by decide,
   C7_absent_artifact_no_removal "out" 7 (fun _ => Except.ok ())
     (fun _ => ["adapter_model.bin"]) rfl (by decide)⟩

/-- Claim C8: when the adapter-save capability fails, `on_save`
propagates exactly that failure to the caller (no catch, no retry: the
capability is invoked once) and the cleanup step is never reached (no
removal occurs). -/
theorem C8_save_failure_propagates {ε : Type} (output_dir : String)
    (global_step : Nat) (save : String → Except ε Unit)
    (listdir : String → List String) (e : ε)
    (herr : save (checkpoint_path output_dir global_step) = Except.error e) :
    (on_save output_dir global_step save listdir).2 = Except.error e ∧
    removeCalls (on_save output_dir global_step save listdir).1 = [] := by
  unfold on_save
  simp [herr, removeCalls]

/-- Witness for claim C8 with a concrete failing save capability. -/
theorem C8_save_failure_propagates_witness :
    ((fun _ : String => (Except.error "disk full" : Except String Unit))
       (checkpoint_path "out" 7) = Except.error "disk full") ∧
    ((on_save "out" 7 (fun _ => (Except.error "disk full" : Except String Unit))
        (fun _ => ([] : List String))).2 = Except.error "disk full" ∧
     removeCalls (on_save "out" 7
        (fun _ => (Except.error "disk full" : Except String Unit))
        (fun _ => ([] : List String))).1 = []) :=
  ⟨rfl,
   C8_save_failure_propagates "out" 7 (fun _ => Except.error "disk full")
     (fun _ => []) "disk full" rfl⟩

/-- Claim C2: for every `seqLen > 0` and non-empty Sample Source, every
block emitted by the infinite Packing Stream has ids of length exactly
`seqLen`, labels equal to the ids element-wise, and an all-ones
attention mask of the same length (the stream is total: each pull
terminates with such a block). -/
theorem C2_emitted_block_shape (tokenize : String → List Nat) (eosId : Nat)
    (samples : List Sample) (seqLen k : Nat)
    (_hseq : 0 < seqLen) (hne : samples ≠ []) :
    (emittedBlock tokenize eosId samples seqLen k).input_ids.length = seqLen ∧
    (emittedBlock tokenize eosId samples seqLen k).labels
      = (emittedBlock tokenize eosId samples seqLen k).input_ids ∧
    (emittedBlock tokenize eosId samples seqLen k).attention_mask
      = List.replicate seqLen 1 := by
  have hlen : seqLen ≤ (fillBuffer tokenize eosId samples seqLen seqLen
      (streamState tokenize eosId samples seqLen k)).buffer.length :=
    fillBuffer_length_ge tokenize eosId samples seqLen hne seqLen _ (by omega)
  unfold emittedBlock nextBlock
  refine ⟨?_, rfl, ?_⟩
  · simp only [List.length_take]
    omega
  · simp only [List.length_take]
    congr 1
    omega

/-- Witness for claim C2: a one-sample source, character-code
tokenizer, end-of-text id 0 and `seqLen = 4`; the first emitted block
has the claimed shape. -/
theorem C2_emitted_block_shape_witness :
    0 < 4 ∧ ([(⟨"a", "b"⟩ : Sample)] ≠ ([] : List Sample)) ∧
    ((emittedBlock (fun s => s.toList.map Char.toNat) 0 [⟨"a", "b"⟩] 4 0).input_ids.length = 4 ∧
     (emittedBlock (fun s => s.toList.map Char.toNat) 0 [⟨"a", "b"⟩] 4 0).labels
       = (emittedBlock (fun s => s.toList.map Char.toNat) 0 [⟨"a", "b"⟩] 4 0).input_ids ∧
     (emittedBlock (fun s => s.toList.map Char.toNat) 0 [⟨"a", "b"⟩] 4 0).attention_mask
       = List.replicate 4 1) :=
  ⟨by decide, by decide,
   C2_emitted_block_shape (fun s => s.toList.map Char.toNat) 0 [⟨"a", "b"⟩] 4 0
     (by decide) (by decide)⟩
